import Mathlib

/-!
Shallow embedding of the dataset-profiling engine of `analyzerdata`
(`analyze_dataframe` in `src/flask_app.py`, plus the example-row block of
`src/streamlist.py`), together with theorems settling the specification
claims about it.

Strings are modelled as `List Char` (`Str`), cell values as a closed
variant (`Cell`), percentages as exact rationals (`ℚ`).  Pandas
`.str.lower()` / `case=False` is modelled with `Char.toLower` (ASCII
case folding), `in` / `.str.contains(..., regex=False)` as literal
substring containment (`List.IsInfix`), and Python's stable `list.sort`
as `List.mergeSort` (which is stable).
-/

namespace AnalyzerData

/-- Python strings, modelled as lists of characters. -/
abbrev Str := List Char

/-- `s.lower()` (ASCII case folding, as `Char.toLower`). -/
def lowerStr (s : Str) : Str := s.map Char.toLower

/-- A cell of the tabular dataset: missing (`null`, pandas NaN/None),
text, integer or boolean. -/
inductive Cell where
  | null : Cell
  | str (s : Str) : Cell
  | int (n : ℤ) : Cell
  | boolean (b : Bool) : Cell
deriving DecidableEq, Repr

/-- `str(cell)` — Python stringification; a missing cell stringifies to
the fixed literal `"None"`. -/
def cellToStr : Cell → Str
  | Cell.null => "None".data
  | Cell.str s => s
  | Cell.int n => (toString n).data
  | Cell.boolean true => "True".data
  | Cell.boolean false => "False".data

/-- A named dataset column: name, pandas dtype label, and its cells. -/
structure Column where
  name : Str
  dtype : Str
  cells : List Cell
deriving DecidableEq, Repr

/-- A dataset (`pd.DataFrame`): a declared row count and an ordered list
of named columns. -/
structure DataFrame where
  nrows : Nat
  cols : List Column
deriving DecidableEq, Repr

/-- Well-formedness (rectangular shape): every column has exactly
`nrows` cells.  The profiler's contract assumes this. -/
def DataFrame.Rect (df : DataFrame) : Prop :=
  ∀ c ∈ df.cols, c.cells.length = df.nrows

instance (df : DataFrame) : Decidable df.Rect := by
  unfold DataFrame.Rect; infer_instance

/-- `EXCLUDED_COLUMNS` of `flask_app.py`: the process-wide set of column
names excluded from completeness accounting. -/
def EXCLUDED_COLUMNS : List Str :=
  ["CreatedAt", "ModifiedAt", "DeletedAt", "IsDeleted", "CreatedById",
   "ModifiedById", "DeletedById", "Governorate"].map String.data

/-- `series.isnull().sum()` for one column. -/
def missingCount (c : Column) : Nat :=
  c.cells.countP (fun x => decide (x = Cell.null))

/-- `series.notna().sum()` for one column. -/
def completeCount (c : Column) : Nat :=
  c.cells.countP (fun x => decide (x ≠ Cell.null))

/-- `series.notna().all()` for one column. -/
def notnaAll (c : Column) : Bool :=
  c.cells.all (fun x => decide (x ≠ Cell.null))

/-- `(num / den * 100) if den else 0.0` — the guarded percentage used
throughout `analyze_dataframe`. -/
def pct (num den : Nat) : ℚ :=
  if den = 0 then 0 else (num : ℚ) / (den : ℚ) * 100

/-- `[col for col in df.columns if col not in EXCLUDED_COLUMNS]`, with the
excluded set passed explicitly. -/
def columnsToCheck (excluded : List Str) (df : DataFrame) : List Column :=
  df.cols.filter (fun c => decide (c.name ∉ excluded))

/-- Row `i` of the dataset, as the list of its cells across columns. -/
def DataFrame.row (df : DataFrame) (i : Nat) : List Cell :=
  df.cols.map (fun c => c.cells.getD i Cell.null)

/-- The dataset's rows in order. -/
def DataFrame.rows (df : DataFrame) : List (List Cell) :=
  (List.range df.nrows).map df.row

/-- Helper for `df.duplicated().sum()`: counts rows already seen. -/
def dupAux (seen : List (List Cell)) : List (List Cell) → Nat
  | [] => 0
  | r :: rs => (if r ∈ seen then 1 else 0) + dupAux (r :: seen) rs

/-- `int(df.duplicated().sum())`: each row equal to an earlier row counts
once per occurrence past the first. -/
def numDuplicates (rows : List (List Cell)) : Nat := dupAux [] rows

/-- The `ColumnStatus` dataclass. -/
structure ColumnStatus where
  name : Str
  is_complete : Bool
  complete_count : Nat
  missing_count : Nat
  completion_rate : ℚ
  dtype : Str
deriving DecidableEq, Repr

/-- The `WordResult` dataclass. -/
structure WordResult where
  name : Str
  count : Nat
  percentage : ℚ
deriving DecidableEq, Repr

/-- The `WordExample` dataclass. -/
structure WordExample where
  name : Str
  row_number : Nat
  value : Str
deriving DecidableEq, Repr

/-- The `MissingBreakdown` dataclass. -/
structure MissingBreakdown where
  name : Str
  missing_count : Nat
  percentage : ℚ
deriving DecidableEq, Repr

/-- The `DatasetStats` dataclass returned by `analyze_dataframe`. -/
structure DatasetStats where
  num_rows : Nat
  num_columns : Nat
  num_duplicates : Nat
  total_missing : Nat
  missing_percentage : ℚ
  complete_columns_count : Nat
  complete_columns : List Str
  all_columns : List ColumnStatus
  filtered_columns : List ColumnStatus
  column_names : List Str
  dtypes : List (Str × Str)
  missing_breakdown : List MissingBreakdown
  word_results : List WordResult
  word_examples : List WordExample
  word_total_occurrences : Nat
deriving DecidableEq, Repr

/-- The `ColumnStatus` built for one included column in the
`for col in columns_to_check` loop. -/
def mkStatus (nrows : Nat) (c : Column) : ColumnStatus :=
  { name := c.name
    is_complete := decide (missingCount c = 0)
    complete_count := completeCount c
    missing_count := missingCount c
    completion_rate := pct (completeCount c) nrows
    dtype := c.dtype }

/-- The `MissingBreakdown` entry built for one column with missing
cells. -/
def mkBreakdown (nrows : Nat) (c : Column) : MissingBreakdown :=
  { name := c.name
    missing_count := missingCount c
    percentage := pct (missingCount c) nrows }

/-- `series.str.contains(pat, case=False, na=False, regex=False)` for one
cell after `astype(str)`: case-insensitive literal substring
containment. -/
def cellMatches (pat : Str) (cell : Cell) : Bool :=
  decide (lowerStr pat <:+: lowerStr (cellToStr cell))

/-- `int(matches.sum())` for one column. -/
def colMatchCount (pat : Str) (c : Column) : Nat :=
  c.cells.countP (cellMatches pat)

/-- The positional indices of the matching cells, in row order
(`df.loc[matches].index`). -/
def matchIdxFrom (pat : Str) : Nat → List Cell → List Nat
  | _, [] => []
  | i, x :: xs =>
      if cellMatches pat x then i :: matchIdxFrom pat (i + 1) xs
      else matchIdxFrom pat (i + 1) xs

/-- All matching row indices of a column. -/
def matchIndices (pat : Str) (c : Column) : List Nat :=
  matchIdxFrom pat 0 c.cells

/-- The `WordResult` list accumulated by the word-search loop, before
sorting: one entry per included column with at least one match, in
column order. -/
def wordResultsRaw (nrows : Nat) (pat : Str) (cols : List Column) :
    List WordResult :=
  (cols.filter (fun c => decide (0 < colMatchCount pat c))).map
    (fun c => ⟨c.name, colMatchCount pat c, pct (colMatchCount pat c) nrows⟩)

/-- The examples contributed by one column: its first three matching
rows, each with 1-based row number and raw stringified value. -/
def colExamples (pat : Str) (c : Column) : List WordExample :=
  ((matchIndices pat c).take 3).map
    (fun i => ⟨c.name, i + 1, cellToStr (c.cells.getD i Cell.null)⟩)

/-- The `WordExample` list accumulated by the word-search loop, before the
overall `[:10]` truncation. -/
def wordExamplesRaw (pat : Str) (cols : List Column) : List WordExample :=
  (cols.filter (fun c => decide (0 < colMatchCount pat c))).flatMap
    (colExamples pat)

/-- `word_total_occurrences`, accumulated over matching columns. -/
def wordTotal (pat : Str) (cols : List Column) : Nat :=
  ((cols.filter (fun c => decide (0 < colMatchCount pat c))).map
    (colMatchCount pat)).sum

/-- The stable descending sort on `missing_count`
(`missing_breakdown.sort(key=..., reverse=True)`). -/
def sortBreakdown (l : List MissingBreakdown) : List MissingBreakdown :=
  l.mergeSort (fun a b => decide (b.missing_count ≤ a.missing_count))

/-- The stable descending sort on `count`
(`word_results.sort(key=..., reverse=True)`). -/
def sortWordResults (l : List WordResult) : List WordResult :=
  l.mergeSort (fun a b => decide (b.count ≤ a.count))

/-- `analyze_dataframe(df, column_query, word_query)` of `flask_app.py`,
with the excluded-column set passed as an explicit parameter (it is
`EXCLUDED_COLUMNS` in the process). -/
def analyze_dataframe (excluded : List Str) (df : DataFrame)
    (column_query word_query : Str) : DatasetStats :=
  let num_rows := df.nrows
  let num_columns := df.cols.length
  let total_missing := (df.cols.map missingCount).sum
  let total_cells := num_rows * num_columns
  let cToCheck := columnsToCheck excluded df
  let complete_columns := (cToCheck.filter notnaAll).map Column.name
  let all_columns := cToCheck.map (mkStatus num_rows)
  let filtered_columns :=
    if column_query = [] then []
    else all_columns.filter
      (fun status => decide (lowerStr column_query <:+: lowerStr status.name))
  let missing_breakdown :=
    sortBreakdown
      ((df.cols.filter (fun c => decide (0 < missingCount c))).map
        (mkBreakdown num_rows))
  let pat := lowerStr word_query
  let word_results :=
    if word_query = [] then [] else sortWordResults (wordResultsRaw num_rows pat cToCheck)
  let word_examples :=
    if word_query = [] then [] else (wordExamplesRaw pat cToCheck).take 10
  let word_total_occurrences :=
    if word_query = [] then 0 else wordTotal pat cToCheck
  { num_rows := num_rows
    num_columns := num_columns
    num_duplicates := numDuplicates df.rows
    total_missing := total_missing
    missing_percentage := pct total_missing total_cells
    complete_columns_count := complete_columns.length
    complete_columns := complete_columns
    all_columns := all_columns
    filtered_columns := filtered_columns
    column_names := df.cols.map Column.name
    dtypes := df.cols.map (fun c => (c.name, c.dtype))
    missing_breakdown := missing_breakdown
    word_results := word_results
    word_examples := word_examples
    word_total_occurrences := word_total_occurrences }

/-! ### Basic lemmas about the percentage and count helpers -/

theorem pct_nonneg (n d : Nat) : 0 ≤ pct n d := by
  unfold pct
  split
  · exact le_refl 0
  · positivity

theorem pct_le_100 {n d : Nat} (h : n ≤ d) : pct n d ≤ 100 := by
  unfold pct
  split
  · norm_num
  · rename_i hd
    have hd' : (0 : ℚ) < (d : ℚ) := by positivity
    have hnd : (n : ℚ) ≤ (d : ℚ) := by exact_mod_cast h
    have h1 : (n : ℚ) / (d : ℚ) ≤ 1 := (div_le_one hd').mpr hnd
    calc (n : ℚ) / (d : ℚ) * 100 ≤ 1 * 100 := by
          exact mul_le_mul_of_nonneg_right h1 (by norm_num)
      _ = 100 := by norm_num

theorem pct_eq_zero_iff (n d : Nat) : pct n d = 0 ↔ d = 0 ∨ n = 0 := by
  unfold pct
  split
  · rename_i hd
    simp [hd]
  · rename_i hd
    have hd' : ((d : ℚ)) ≠ 0 := by exact_mod_cast hd
    constructor
    · intro h
      rcases mul_eq_zero.mp h with h1 | h1
      · right
        exact_mod_cast (div_eq_zero_iff.mp h1).resolve_right hd'
      · norm_num at h1
    · rintro (h | h)
      · exact absurd h hd
      · simp [h]

theorem pct_zero_den (n : Nat) : pct n 0 = 0 := by simp [pct]

theorem completeCount_le_length (c : Column) :
    completeCount c ≤ c.cells.length :=
  List.countP_le_length _

theorem missingCount_le_length (c : Column) :
    missingCount c ≤ c.cells.length :=
  List.countP_le_length _

/-- `series.notna().all()` is exactly "zero missing cells". -/
theorem notnaAll_iff (c : Column) :
    notnaAll c = true ↔ missingCount c = 0 := by
  unfold notnaAll missingCount
  rw [List.all_eq_true, List.countP_eq_zero]
  constructor
  · intro h x hx
    have := h x hx
    simpa using this
  · intro h x hx
    have := h x hx
    simpa using this

theorem missingCount_add_completeCount (c : Column) :
    missingCount c + completeCount c = c.cells.length := by
  unfold missingCount completeCount
  have h := List.length_eq_countP_add_countP
    (fun x => decide (x = Cell.null)) c.cells
  rw [h]
  congr 1
  apply List.countP_congr
  intro x _
  simp

/-! ### Stability of the descending key sort (`list.sort(key=..., reverse=True)`) -/

theorem mergeSort_key_sorted {β : Type} (key : β → Nat) (l : List β) :
    (l.mergeSort (fun a b => decide (key b ≤ key a))).Pairwise
      (fun a b => key b ≤ key a) := by
  have h : (l.mergeSort (fun a b => decide (key b ≤ key a))).Pairwise
      (fun a b => decide (key b ≤ key a) = true) :=
    List.sorted_mergeSort
      (fun a b c hab hbc => by
        simp only [decide_eq_true_eq] at *
        omega)
      (fun a b => by
        simp only [Bool.or_eq_true, decide_eq_true_eq]
        omega)
      l
  exact h.imp (fun hab => of_decide_eq_true hab)

theorem mergeSort_key_filter {β : Type} (key : β → Nat) (l : List β) (k : Nat) :
    (l.mergeSort (fun a b => decide (key b ≤ key a))).filter
      (fun x => decide (key x = k))
      = l.filter (fun x => decide (key x = k)) := by
  have hperm : List.Perm (l.mergeSort (fun a b => decide (key b ≤ key a))) l :=
    List.mergeSort_perm l _
  have hpair : (l.filter (fun x => decide (key x = k))).Pairwise
      (fun a b => decide (key b ≤ key a)) := by
    apply List.pairwise_of_forall_mem_list
    intro a ha b hb
    have ha' := (List.mem_filter.mp ha).2
    have hb' := (List.mem_filter.mp hb).2
    simp only [decide_eq_true_eq] at ha' hb' ⊢
    omega
  have hsub : List.Sublist (l.filter (fun x => decide (key x = k)))
      (l.mergeSort (fun a b => decide (key b ≤ key a))) := by
    apply List.sublist_mergeSort
      (fun a b c hab hbc => by
        simp only [decide_eq_true_eq] at *
        omega)
      (fun a b => by
        simp only [Bool.or_eq_true, decide_eq_true_eq]
        omega)
      hpair (List.filter_sublist l)
  have hsub2 : List.Sublist (l.filter (fun x => decide (key x = k)))
      ((l.mergeSort (fun a b => decide (key b ≤ key a))).filter
          (fun x => decide (key x = k))) := by
    have h1 := hsub.filter (fun x => decide (key x = k))
    have h2 : (l.filter (fun x => decide (key x = k))).filter
        (fun x => decide (key x = k)) = l.filter (fun x => decide (key x = k)) :=
      List.filter_eq_self.mpr (fun a ha => (List.mem_filter.mp ha).2)
    rwa [h2] at h1
  have hlen : ((l.mergeSort (fun a b => decide (key b ≤ key a))).filter
      (fun x => decide (key x = k))).length
      = (l.filter (fun x => decide (key x = k))).length :=
    (hperm.filter _).length_eq
  exact (hsub2.eq_of_length hlen.symm).symm

/-! ### Match indices, filtered flat-maps and sums -/

theorem length_matchIdxFrom (pat : Str) (i : Nat) (xs : List Cell) :
    (matchIdxFrom pat i xs).length = xs.countP (cellMatches pat) := by
  induction xs generalizing i with
  | nil => simp [matchIdxFrom]
  | cons x xs ih =>
      by_cases h : cellMatches pat x <;>
        simp [matchIdxFrom, h, List.countP_cons, ih]

theorem length_matchIndices (pat : Str) (c : Column) :
    (matchIndices pat c).length = colMatchCount pat c :=
  length_matchIdxFrom pat 0 c.cells

theorem matchIndices_nil_of_count_zero (pat : Str) (c : Column)
    (h : colMatchCount pat c = 0) : matchIndices pat c = [] := by
  have := length_matchIndices pat c
  rw [h] at this
  exact List.eq_nil_of_length_eq_zero this

theorem colExamples_nil_of_count_zero (pat : Str) (c : Column)
    (h : colMatchCount pat c = 0) : colExamples pat c = [] := by
  unfold colExamples
  rw [matchIndices_nil_of_count_zero pat c h]
  rfl

/-- Skipping the zero-count columns does not change the concatenated
example list. -/
theorem wordExamplesRaw_eq_flatMap (pat : Str) (cols : List Column) :
    wordExamplesRaw pat cols = cols.flatMap (colExamples pat) := by
  unfold wordExamplesRaw
  induction cols with
  | nil => rfl
  | cons c cs ih =>
      by_cases hc : 0 < colMatchCount pat c
      · simp [List.filter_cons, hc, ih]
      · have h0 : colMatchCount pat c = 0 := by omega
        simp [List.filter_cons, hc, ih,
          colExamples_nil_of_count_zero pat c h0]

/-- Skipping the zero-count columns does not change the total occurrence
count. -/
theorem wordTotal_eq_sum (pat : Str) (cols : List Column) :
    wordTotal pat cols = (cols.map (colMatchCount pat)).sum := by
  unfold wordTotal
  induction cols with
  | nil => rfl
  | cons c cs ih =>
      by_cases hc : 0 < colMatchCount pat c
      · simp [List.filter_cons, hc, ih]
      · have h0 : colMatchCount pat c = 0 := by omega
        simp [List.filter_cons, hc, ih, h0]

/-! ### Duplicate counting -/

theorem dupAux_eq (rs : List (List Cell)) : ∀ seen : List (List Cell),
    dupAux seen rs = (List.range rs.length).countP
      (fun i => decide (rs.getD i [] ∈ seen ∨ rs.getD i [] ∈ rs.take i)) := by
  induction rs with
  | nil => intro seen; simp [dupAux]
  | cons r rs ih =>
      intro seen
      rw [dupAux, List.length_cons, List.range_succ_eq_map,
        List.countP_cons, List.countP_map]
      have hsucc : ((fun i => decide ((r :: rs).getD i [] ∈ seen ∨
            (r :: rs).getD i [] ∈ (r :: rs).take i)) ∘ Nat.succ)
          = fun i => decide (rs.getD i [] ∈ (r :: seen) ∨
            rs.getD i [] ∈ rs.take i) := by
        funext i
        simp only [Function.comp_apply, List.getD_cons_succ,
          List.take_succ_cons, decide_eq_decide, List.mem_cons]
        tauto
      rw [hsucc, ← ih (r :: seen)]
      simp only [List.getD_cons_zero, List.take_zero, List.not_mem_nil,
        or_false]
      by_cases hr : r ∈ seen
      · simp only [hr, if_true, decide_eq_true_eq]
        omega
      · simp only [hr, if_false, decide_eq_true_eq]
        omega

/-- `df.duplicated().sum()` counts exactly the rows equal to an earlier
row. -/
theorem numDuplicates_eq (rows : List (List Cell)) :
    numDuplicates rows = (List.range rows.length).countP
      (fun i => decide (rows.getD i [] ∈ rows.take i)) := by
  rw [numDuplicates, dupAux_eq rows []]
  apply List.countP_congr
  intro i _
  simp

/-! ### ASCII case folding -/

theorem toNat_ofNat_of_valid {n : Nat} (h : n.isValidChar) :
    (Char.ofNat n).toNat = n := by
  rw [Char.ofNat, dif_pos h]
  rfl

theorem toLower_toLower (c : Char) : c.toLower.toLower = c.toLower := by
  unfold Char.toLower
  by_cases h : c.toNat ≥ 65 ∧ c.toNat ≤ 90
  · rw [if_pos h]
    have hval : (c.toNat + 32).isValidChar := by
      left
      have := h.2
      omega
    rw [toNat_ofNat_of_valid hval, if_neg (by omega)]
  · rw [if_neg h, if_neg h]

theorem lowerStr_lowerStr (s : Str) : lowerStr (lowerStr s) = lowerStr s := by
  unfold lowerStr
  rw [List.map_map]
  apply List.map_congr_left
  intro c _
  exact toLower_toLower c

/-! ### Field equations of `analyze_dataframe` -/

theorem analyze_num_rows (excluded : List Str) (df : DataFrame) (cq wq : Str) :
    (analyze_dataframe excluded df cq wq).num_rows = df.nrows := rfl

theorem analyze_num_columns (excluded : List Str) (df : DataFrame) (cq wq : Str) :
    (analyze_dataframe excluded df cq wq).num_columns = df.cols.length := rfl

theorem analyze_num_duplicates (excluded : List Str) (df : DataFrame) (cq wq : Str) :
    (analyze_dataframe excluded df cq wq).num_duplicates
      = numDuplicates df.rows := rfl

theorem analyze_total_missing (excluded : List Str) (df : DataFrame) (cq wq : Str) :
    (analyze_dataframe excluded df cq wq).total_missing
      = (df.cols.map missingCount).sum := rfl

theorem analyze_missing_percentage (excluded : List Str) (df : DataFrame) (cq wq : Str) :
    (analyze_dataframe excluded df cq wq).missing_percentage
      = pct ((df.cols.map missingCount).sum) (df.nrows * df.cols.length) := rfl

theorem analyze_complete_columns (excluded : List Str) (df : DataFrame) (cq wq : Str) :
    (analyze_dataframe excluded df cq wq).complete_columns
      = ((columnsToCheck excluded df).filter notnaAll).map Column.name := rfl

theorem analyze_all_columns (excluded : List Str) (df : DataFrame) (cq wq : Str) :
    (analyze_dataframe excluded df cq wq).all_columns
      = (columnsToCheck excluded df).map (mkStatus df.nrows) := rfl

theorem analyze_filtered_columns (excluded : List Str) (df : DataFrame) (cq wq : Str) :
    (analyze_dataframe excluded df cq wq).filtered_columns
      = (if cq = [] then []
        else ((columnsToCheck excluded df).map (mkStatus df.nrows)).filter
          (fun status => decide (lowerStr cq <:+: lowerStr status.name))) := rfl

theorem analyze_missing_breakdown (excluded : List Str) (df : DataFrame) (cq wq : Str) :
    (analyze_dataframe excluded df cq wq).missing_breakdown
      = sortBreakdown
          ((df.cols.filter (fun c => decide (0 < missingCount c))).map
            (mkBreakdown df.nrows)) := rfl

theorem analyze_word_results (excluded : List Str) (df : DataFrame) (cq wq : Str) :
    (analyze_dataframe excluded df cq wq).word_results
      = (if wq = [] then []
        else sortWordResults
          (wordResultsRaw df.nrows (lowerStr wq) (columnsToCheck excluded df))) := rfl

theorem analyze_word_examples (excluded : List Str) (df : DataFrame) (cq wq : Str) :
    (analyze_dataframe excluded df cq wq).word_examples
      = (if wq = [] then []
        else (wordExamplesRaw (lowerStr wq) (columnsToCheck excluded df)).take 10) := rfl

theorem analyze_word_total (excluded : List Str) (df : DataFrame) (cq wq : Str) :
    (analyze_dataframe excluded df cq wq).word_total_occurrences
      = (if wq = [] then 0
        else wordTotal (lowerStr wq) (columnsToCheck excluded df)) := rfl

/-- `notnaAll` as a decision on the missing count. -/
theorem notnaAll_eq (c : Column) :
    notnaAll c = decide (missingCount c = 0) := by
  by_cases h : missingCount c = 0
  · rw [(notnaAll_iff c).mpr h]
    simp [h]
  · have h1 : notnaAll c = false := by
      cases hb : notnaAll c
      · rfl
      · exact absurd ((notnaAll_iff c).mp hb) h
    rw [h1]
    simp [h]

/-! ### Claim theorems -/

/-- C10: the Profile's completeness fields are mutually consistent:
`complete_columns` is, in original column order, exactly the names of the
included columns with zero missing cells; `complete_columns_count` is its
length; and every `ColumnStatus` has `is_complete` true iff its
`missing_count` is `0`. -/
theorem C10_profile_consistency (excluded : List Str) (df : DataFrame)
    (cq wq : Str) :
    (analyze_dataframe excluded df cq wq).complete_columns
      = ((columnsToCheck excluded df).filter
          (fun c => decide (missingCount c = 0))).map Column.name
    ∧ (analyze_dataframe excluded df cq wq).complete_columns_count
      = (analyze_dataframe excluded df cq wq).complete_columns.length
    ∧ ∀ s ∈ (analyze_dataframe excluded df cq wq).all_columns,
        (s.is_complete = true ↔ s.missing_count = 0) := by
  refine ⟨?_, rfl, ?_⟩
  · rw [analyze_complete_columns]
    congr 1
    apply List.filter_congr
    intro c _
    exact notnaAll_eq c
  · intro s hs
    rw [analyze_all_columns] at hs
    obtain ⟨c, _, rfl⟩ := List.mem_map.mp hs
    simp [mkStatus]

/-- C10 witness. -/
theorem C10_profile_consistency_witness :
    (mkStatus 1 ⟨"A".data, "object".data, [Cell.null]⟩).is_complete ≠ true := by
  have h := (C10_profile_consistency EXCLUDED_COLUMNS
    ⟨1, [⟨"A".data, "object".data, [Cell.null]⟩]⟩ [] []).2.2
  have hcols : columnsToCheck EXCLUDED_COLUMNS
      ⟨1, [⟨"A".data, "object".data, [Cell.null]⟩]⟩
      = [⟨"A".data, "object".data, [Cell.null]⟩] := by decide
  have hmem : (mkStatus 1 ⟨"A".data, "object".data, [Cell.null]⟩)
      ∈ (analyze_dataframe EXCLUDED_COLUMNS
        ⟨1, [⟨"A".data, "object".data, [Cell.null]⟩]⟩ [] []).all_columns := by
    rw [analyze_all_columns, hcols]
    exact List.mem_singleton.mpr rfl
  intro hc
  exact absurd ((h _ hmem).mp hc) (by decide)

/-- C9: the sum of missing counts over the included columns' statuses is
at most `total_missing`, with equality when the excluded set is empty. -/
theorem C9_missing_sum (excluded : List Str) (df : DataFrame) (cq wq : Str) :
    (((analyze_dataframe excluded df cq wq).all_columns.map
        ColumnStatus.missing_count).sum
      ≤ (analyze_dataframe excluded df cq wq).total_missing)
    ∧ (excluded = [] →
        ((analyze_dataframe excluded df cq wq).all_columns.map
          ColumnStatus.missing_count).sum
        = (analyze_dataframe excluded df cq wq).total_missing) := by
  rw [analyze_all_columns, analyze_total_missing, List.map_map]
  have hmap : (ColumnStatus.missing_count ∘ mkStatus df.nrows) = missingCount := by
    funext c
    rfl
  rw [hmap]
  constructor
  · apply List.Sublist.sum_le_sum
    · exact (List.filter_sublist df.cols).map missingCount
    · intro x _
      exact Nat.zero_le x
  · intro he
    subst he
    unfold columnsToCheck
    rw [List.filter_eq_self.mpr]
    intro c _
    simp

/-- C9 witness. -/
theorem C9_missing_sum_witness :
    ((analyze_dataframe ([] : List Str)
        ⟨1, [⟨"A".data, "object".data, [Cell.null]⟩]⟩ [] []).all_columns.map
      ColumnStatus.missing_count).sum
    = (analyze_dataframe ([] : List Str)
        ⟨1, [⟨"A".data, "object".data, [Cell.null]⟩]⟩ [] []).total_missing :=
  (C9_missing_sum [] ⟨1, [⟨"A".data, "object".data, [Cell.null]⟩]⟩ [] []).2 rfl

/-- C3: an empty `columnQuery` yields an empty filtered list regardless
of dataset contents; a non-empty query yields exactly the included-column
statuses whose name contains the query as a case-insensitive substring,
in original order. -/
theorem C3_column_filter (excluded : List Str) (df : DataFrame)
    (cq wq : Str) :
    (cq = [] → (analyze_dataframe excluded df cq wq).filtered_columns = [])
    ∧ (cq ≠ [] →
        (analyze_dataframe excluded df cq wq).filtered_columns
          = (analyze_dataframe excluded df cq wq).all_columns.filter
              (fun s => decide (lowerStr cq <:+: lowerStr s.name))
        ∧ ∀ s, s ∈ (analyze_dataframe excluded df cq wq).filtered_columns ↔
            (s ∈ (analyze_dataframe excluded df cq wq).all_columns ∧
              lowerStr cq <:+: lowerStr s.name)) := by
  constructor
  · intro h
    rw [analyze_filtered_columns, if_pos h]
  · intro h
    rw [analyze_filtered_columns, analyze_all_columns, if_neg h]
    refine ⟨rfl, ?_⟩
    intro s
    rw [List.mem_filter]
    simp

/-- C3 witness. -/
theorem C3_column_filter_witness :
    (analyze_dataframe EXCLUDED_COLUMNS
      ⟨1, [⟨"Age".data, "int64".data, [Cell.int 1]⟩]⟩ [] []).filtered_columns = []
    ∧ ((analyze_dataframe EXCLUDED_COLUMNS
      ⟨1, [⟨"Age".data, "int64".data, [Cell.int 1]⟩]⟩ "aG".data []).filtered_columns.map
        (fun s => s.name)) = ["Age".data] := by
  constructor
  · exact (C3_column_filter EXCLUDED_COLUMNS
      ⟨1, [⟨"Age".data, "int64".data, [Cell.int 1]⟩]⟩ [] []).1 rfl
  · have h := ((C3_column_filter EXCLUDED_COLUMNS
      ⟨1, [⟨"Age".data, "int64".data, [Cell.int 1]⟩]⟩ "aG".data []).2
        (by decide)).1
    rw [h]
    decide

/-- C8: the duplicate-row count is the number of rows that repeat an
earlier row value-for-value, each occurrence past the first counting
once; the empty dataset yields `0`. -/
theorem C8_duplicates (excluded : List Str) (df : DataFrame) (cq wq : Str) :
    (analyze_dataframe excluded df cq wq).num_duplicates
      = (List.range df.rows.length).countP
          (fun i => decide (df.rows.getD i [] ∈ df.rows.take i))
    ∧ (df.nrows = 0 →
        (analyze_dataframe excluded df cq wq).num_duplicates = 0) := by
  constructor
  · rw [analyze_num_duplicates]
    exact numDuplicates_eq df.rows
  · intro h
    rw [analyze_num_duplicates]
    unfold DataFrame.rows
    rw [h]
    rfl

/-- C8 witness. -/
theorem C8_duplicates_witness :
    (analyze_dataframe EXCLUDED_COLUMNS
      (⟨0, [⟨"A".data, "object".data, []⟩]⟩ : DataFrame) [] []).num_duplicates = 0 :=
  (C8_duplicates EXCLUDED_COLUMNS ⟨0, [⟨"A".data, "object".data, []⟩]⟩ [] []).2 rfl

/-- C4: the missing breakdown has exactly one entry per dataset column
(excluded columns included) with missing count `> 0`, is sorted in
descending order of missing count, and ties keep the original column
order (stable sort: filtering the breakdown to any fixed missing count
gives exactly the original-order list). -/
theorem C4_missing_breakdown (excluded : List Str) (df : DataFrame)
    (cq wq : Str) :
    List.Perm (analyze_dataframe excluded df cq wq).missing_breakdown
        ((df.cols.filter (fun c => decide (0 < missingCount c))).map
          (mkBreakdown df.nrows))
    ∧ (analyze_dataframe excluded df cq wq).missing_breakdown.Pairwise
        (fun a b => b.missing_count ≤ a.missing_count)
    ∧ ∀ k : Nat, (analyze_dataframe excluded df cq wq).missing_breakdown.filter
          (fun e : MissingBreakdown => decide (e.missing_count = k))
        = ((df.cols.filter (fun c => decide (0 < missingCount c))).map
            (mkBreakdown df.nrows)).filter
              (fun e : MissingBreakdown => decide (e.missing_count = k)) := by
  rw [analyze_missing_breakdown]
  unfold sortBreakdown
  exact ⟨List.mergeSort_perm _ _,
    mergeSort_key_sorted (fun e : MissingBreakdown => e.missing_count) _,
    fun k => mergeSort_key_filter
      (fun e : MissingBreakdown => e.missing_count) _ k⟩

/-- C1 counterexample: on a 1-row dataset whose only column is entirely
missing, the included column's completion rate is `0` although `N = 1`;
on a 1-row dataset with no missing cell, the missing percentage is `0`
although `N = 1`.  So neither quantity equals `0` "exactly when
`N = 0`". -/
theorem C1_counterexample :
    (analyze_dataframe EXCLUDED_COLUMNS
        ⟨1, [⟨"A".data, "object".data, [Cell.null]⟩]⟩ [] []).num_rows = 1
    ∧ ((analyze_dataframe EXCLUDED_COLUMNS
        ⟨1, [⟨"A".data, "object".data, [Cell.null]⟩]⟩ [] []).all_columns.map
          (fun s => s.completion_rate)) = [0]
    ∧ (analyze_dataframe EXCLUDED_COLUMNS
        ⟨1, [⟨"A".data, "int64".data, [Cell.int 1]⟩]⟩ [] []).num_rows = 1
    ∧ (analyze_dataframe EXCLUDED_COLUMNS
        ⟨1, [⟨"A".data, "int64".data, [Cell.int 1]⟩]⟩ [] []).missing_percentage
        = 0 := by
  refine ⟨rfl, ?_, rfl, ?_⟩
  · rw [analyze_all_columns]
    have hcols : columnsToCheck EXCLUDED_COLUMNS
        ⟨1, [⟨"A".data, "object".data, [Cell.null]⟩]⟩
        = [⟨"A".data, "object".data, [Cell.null]⟩] := by decide
    rw [hcols]
    have hcc : completeCount ⟨"A".data, "object".data, [Cell.null]⟩ = 0 := by
      decide
    simp [mkStatus, hcc, pct]
  · rw [analyze_missing_percentage]
    have hmc : ((⟨1, [⟨"A".data, "int64".data, [Cell.int 1]⟩]⟩ :
        DataFrame).cols.map missingCount).sum = 0 := by decide
    rw [hmc]
    simp [pct]

/-- C1 (amended): for every rectangular dataset, each included column's
completion rate and the profile's missing percentage lie in `[0, 100]`;
both are `0` whenever `N = 0`, and more precisely the completion rate is
`0` iff `N = 0` or the column has no present cells, while the missing
percentage is `0` iff `N × M = 0` or there are no missing cells. -/
theorem C1_percent_bounds (excluded : List Str) (df : DataFrame)
    (cq wq : Str) (h : df.Rect) :
    (∀ s ∈ (analyze_dataframe excluded df cq wq).all_columns,
        0 ≤ s.completion_rate ∧ s.completion_rate ≤ 100
        ∧ (s.completion_rate = 0 ↔ (df.nrows = 0 ∨ s.complete_count = 0)))
    ∧ 0 ≤ (analyze_dataframe excluded df cq wq).missing_percentage
    ∧ (analyze_dataframe excluded df cq wq).missing_percentage ≤ 100
    ∧ ((analyze_dataframe excluded df cq wq).missing_percentage = 0
        ↔ (df.nrows * df.cols.length = 0
            ∨ (analyze_dataframe excluded df cq wq).total_missing = 0)) := by
  refine ⟨?_, ?_, ?_, ?_⟩
  · intro s hs
    rw [analyze_all_columns] at hs
    obtain ⟨c, hc, rfl⟩ := List.mem_map.mp hs
    have hcsub : c ∈ df.cols := List.mem_of_mem_filter hc
    have hlen : c.cells.length = df.nrows := h c hcsub
    have hle : completeCount c ≤ df.nrows := hlen ▸ completeCount_le_length c
    exact ⟨pct_nonneg _ _, pct_le_100 hle, pct_eq_zero_iff _ _⟩
  · rw [analyze_missing_percentage]
    exact pct_nonneg _ _
  · rw [analyze_missing_percentage]
    apply pct_le_100
    calc (df.cols.map missingCount).sum
        ≤ (df.cols.map (fun c => c.cells.length)).sum := by
          apply List.sum_le_sum
          intro c _
          exact missingCount_le_length c
      _ = (df.cols.map (fun _ => df.nrows)).sum := by
          congr 1
          apply List.map_congr_left
          intro c hc
          exact h c hc
      _ = df.cols.length * df.nrows := by
          rw [List.map_const', List.sum_replicate, smul_eq_mul]
      _ = df.nrows * df.cols.length := Nat.mul_comm _ _
  · rw [analyze_missing_percentage, analyze_total_missing]
    exact pct_eq_zero_iff _ _

/-- C1 witness. -/
theorem C1_percent_bounds_witness :
    (analyze_dataframe EXCLUDED_COLUMNS
      (⟨1, [⟨"A".data, "object".data, [Cell.null]⟩]⟩ : DataFrame) [] []).missing_percentage
      ≤ 100 :=
  (C1_percent_bounds EXCLUDED_COLUMNS
    ⟨1, [⟨"A".data, "object".data, [Cell.null]⟩]⟩ [] [] (by decide)).2.2.1

/-- Every example contributed by a column carries that column's name. -/
theorem name_of_mem_colExamples {pat : Str} {c : Column} {e : WordExample}
    (he : e ∈ colExamples pat c) : e.name = c.name := by
  obtain ⟨i, _, rfl⟩ := List.mem_map.mp he
  rfl

theorem length_colExamples_le (pat : Str) (c : Column) :
    (colExamples pat c).length ≤ 3 := by
  unfold colExamples
  rw [List.length_map]
  exact (List.length_take_le 3 _)

/-- With distinct column names, the concatenated example list holds at
most 3 entries for any one name. -/
theorem countP_flatMap_colExamples_le (pat : Str) (cols : List Column)
    (n : Str) (hnd : (cols.map Column.name).Nodup) :
    (cols.flatMap (colExamples pat)).countP
      (fun e : WordExample => decide (e.name = n)) ≤ 3 := by
  induction cols with
  | nil => simp
  | cons c cs ih =>
      rw [List.map_cons, List.nodup_cons] at hnd
      rw [List.flatMap_cons, List.countP_append]
      by_cases hn : c.name = n
      · have h1 : (colExamples pat c).countP
            (fun e : WordExample => decide (e.name = n))
            ≤ (colExamples pat c).length := List.countP_le_length _
        have h2 : (cs.flatMap (colExamples pat)).countP
            (fun e : WordExample => decide (e.name = n)) = 0 := by
          apply List.countP_eq_zero.mpr
          intro e he
          obtain ⟨c', hc', he'⟩ := List.mem_flatMap.mp he
          have : e.name = c'.name := name_of_mem_colExamples he'
          simp only [decide_eq_true_eq]
          intro hcontra
          apply hnd.1
          have hcc : c.name = c'.name := by rw [hn, ← hcontra, this]
          rw [hcc]
          exact List.mem_map_of_mem Column.name hc'
        have h3 := length_colExamples_le pat c
        omega
      · have h1 : (colExamples pat c).countP
            (fun e : WordExample => decide (e.name = n)) = 0 := by
          apply List.countP_eq_zero.mpr
          intro e he
          have := name_of_mem_colExamples he
          simp only [decide_eq_true_eq]
          rw [this]
          exact hn
        have h2 := ih hnd.2
        omega

/-- The matching indices are strictly increasing and bounded below by the
starting index. -/
theorem matchIdxFrom_increasing (pat : Str) (xs : List Cell) : ∀ i : Nat,
    (matchIdxFrom pat i xs).Pairwise (· < ·)
    ∧ ∀ j ∈ matchIdxFrom pat i xs, i ≤ j := by
  induction xs with
  | nil => intro i; simp [matchIdxFrom]
  | cons x xs ih =>
      intro i
      unfold matchIdxFrom
      by_cases h : cellMatches pat x
      · rw [if_pos h]
        refine ⟨List.pairwise_cons.mpr ⟨?_, (ih (i + 1)).1⟩, ?_⟩
        · intro j hj
          have := (ih (i + 1)).2 j hj
          omega
        · intro j hj
          rcases List.mem_cons.mp hj with h' | h'
          · omega
          · have := (ih (i + 1)).2 j h'
            omega
      · rw [if_neg h]
        refine ⟨(ih (i + 1)).1, ?_⟩
        intro j hj
        have := (ih (i + 1)).2 j hj
        omega

/-- The row numbers inside one column's example block strictly
increase. -/
theorem colExamples_row_numbers_increasing (pat : Str) (c : Column) :
    (colExamples pat c).Pairwise (fun a b => a.row_number < b.row_number) := by
  unfold colExamples
  rw [List.pairwise_map]
  apply List.Pairwise.sublist (List.take_sublist 3 _)
  have h := (matchIdxFrom_increasing pat c.cells 0).1
  exact h.imp (fun hab => Nat.succ_lt_succ hab)

/-- C5: with a non-empty word query and distinct column names, the
example list holds at most 3 entries per column and at most 10 overall,
it is exactly the first 10 of the per-column blocks of (at most 3)
matching rows concatenated in column order with strictly increasing row
numbers inside each block, and neither the per-column counts nor the
total occurrence count are affected by these caps. -/
theorem C5_example_caps (excluded : List Str) (df : DataFrame)
    (cq wq : Str) (hq : wq ≠ [])
    (hnd : ((columnsToCheck excluded df).map Column.name).Nodup) :
    (analyze_dataframe excluded df cq wq).word_examples.length ≤ 10
    ∧ (∀ n : Str, (analyze_dataframe excluded df cq wq).word_examples.countP
        (fun e : WordExample => decide (e.name = n)) ≤ 3)
    ∧ (analyze_dataframe excluded df cq wq).word_examples
        = ((columnsToCheck excluded df).flatMap
            (colExamples (lowerStr wq))).take 10
    ∧ (∀ c ∈ columnsToCheck excluded df,
        (colExamples (lowerStr wq) c).length ≤ 3
        ∧ (colExamples (lowerStr wq) c).Pairwise
            (fun a b => a.row_number < b.row_number))
    ∧ (analyze_dataframe excluded df cq wq).word_total_occurrences
        = ((columnsToCheck excluded df).map
            (colMatchCount (lowerStr wq))).sum
    ∧ List.Perm (analyze_dataframe excluded df cq wq).word_results
        (wordResultsRaw df.nrows (lowerStr wq) (columnsToCheck excluded df)) := by
  have hex : (analyze_dataframe excluded df cq wq).word_examples
      = ((columnsToCheck excluded df).flatMap
          (colExamples (lowerStr wq))).take 10 := by
    rw [analyze_word_examples, if_neg hq,
      wordExamplesRaw_eq_flatMap (lowerStr wq) (columnsToCheck excluded df)]
  refine ⟨?_, ?_, hex, ?_, ?_, ?_⟩
  · rw [hex]
    exact List.length_take_le 10 _
  · intro n
    rw [hex]
    calc (((columnsToCheck excluded df).flatMap
          (colExamples (lowerStr wq))).take 10).countP
            (fun e : WordExample => decide (e.name = n))
        ≤ ((columnsToCheck excluded df).flatMap
            (colExamples (lowerStr wq))).countP
              (fun e : WordExample => decide (e.name = n)) :=
          List.Sublist.countP_le _ (List.take_sublist 10 _)
      _ ≤ 3 := countP_flatMap_colExamples_le _ _ n hnd
  · intro c _
    exact ⟨length_colExamples_le _ c,
      colExamples_row_numbers_increasing _ c⟩
  · rw [analyze_word_total, if_neg hq]
    exact wordTotal_eq_sum _ _
  · rw [analyze_word_results, if_neg hq]
    unfold sortWordResults
    exact List.mergeSort_perm _ _

/-- C5 witness. -/
theorem C5_example_caps_witness :
    (analyze_dataframe EXCLUDED_COLUMNS
      (⟨1, [⟨"B".data, "object".data, [Cell.str "x".data]⟩]⟩ : DataFrame)
      [] "x".data).word_examples.length ≤ 10 :=
  (C5_example_caps EXCLUDED_COLUMNS
    ⟨1, [⟨"B".data, "object".data, [Cell.str "x".data]⟩]⟩
    [] "x".data (by decide) (by decide)).1

/-! ### Division-checked variant of the profiler

`safeDiv` returns `none` on a zero divisor, so a run of
`analyzeChecked` that returns `some` certifies that no division in
`analyze_dataframe` was reached with a zero denominator: the Python code
would raise `ZeroDivisionError` exactly where `analyzeChecked` would
return `none`. -/

/-- Division that fails (as Python `/` raises) on a zero divisor. -/
def safeDiv (a b : ℚ) : Option ℚ :=
  if b = 0 then none else some (a / b)

/-- `(num / den * 100) if den else 0.0` with the division made fallible:
the guard must prevent the `none` branch of `safeDiv`. -/
def pctChecked (num den : Nat) : Option ℚ :=
  if den = 0 then some 0
  else do
    let r ← safeDiv (num : ℚ) (den : ℚ)
    some (r * 100)

/-- The checked variant of `mkStatus`. -/
def mkStatusChecked (nrows : Nat) (c : Column) : Option ColumnStatus := do
  let rate ← pctChecked (completeCount c) nrows
  some
    { name := c.name
      is_complete := decide (missingCount c = 0)
      complete_count := completeCount c
      missing_count := missingCount c
      completion_rate := rate
      dtype := c.dtype }

/-- The checked variant of `mkBreakdown`. -/
def mkBreakdownChecked (nrows : Nat) (c : Column) : Option MissingBreakdown := do
  let p ← pctChecked (missingCount c) nrows
  some { name := c.name, missing_count := missingCount c, percentage := p }

/-- The checked variant of `wordResultsRaw`. -/
def wordResultsRawChecked (nrows : Nat) (pat : Str) (cols : List Column) :
    Option (List WordResult) :=
  (cols.filter (fun c => decide (0 < colMatchCount pat c))).mapM
    (fun c => do
      let p ← pctChecked (colMatchCount pat c) nrows
      some (⟨c.name, colMatchCount pat c, p⟩ : WordResult))

/-- `analyze_dataframe` with every division routed through `safeDiv`:
returns `none` iff some division would have divided by zero. -/
def analyzeChecked (excluded : List Str) (df : DataFrame)
    (column_query word_query : Str) : Option DatasetStats := do
  let num_rows := df.nrows
  let num_columns := df.cols.length
  let total_missing := (df.cols.map missingCount).sum
  let cToCheck := columnsToCheck excluded df
  let missing_percentage ← pctChecked total_missing (num_rows * num_columns)
  let complete_columns := (cToCheck.filter notnaAll).map Column.name
  let all_columns ← cToCheck.mapM (mkStatusChecked num_rows)
  let filtered_columns :=
    if column_query = [] then []
    else all_columns.filter
      (fun status => decide (lowerStr column_query <:+: lowerStr status.name))
  let breakdown_raw ←
    (df.cols.filter (fun c => decide (0 < missingCount c))).mapM
      (mkBreakdownChecked num_rows)
  let pat := lowerStr word_query
  let word_results ←
    if word_query = [] then some []
    else do
      let raw ← wordResultsRawChecked num_rows pat cToCheck
      some (sortWordResults raw)
  let word_examples :=
    if word_query = [] then [] else (wordExamplesRaw pat cToCheck).take 10
  let word_total_occurrences :=
    if word_query = [] then 0 else wordTotal pat cToCheck
  some
    { num_rows := num_rows
      num_columns := num_columns
      num_duplicates := numDuplicates df.rows
      total_missing := total_missing
      missing_percentage := missing_percentage
      complete_columns_count := complete_columns.length
      complete_columns := complete_columns
      all_columns := all_columns
      filtered_columns := filtered_columns
      column_names := df.cols.map Column.name
      dtypes := df.cols.map (fun c => (c.name, c.dtype))
      missing_breakdown := sortBreakdown breakdown_raw
      word_results := word_results
      word_examples := word_examples
      word_total_occurrences := word_total_occurrences }

theorem pctChecked_eq_some (num den : Nat) :
    pctChecked num den = some (pct num den) := by
  unfold pctChecked pct safeDiv
  by_cases h : den = 0
  · rw [if_pos h, if_pos h]
  · have h' : ((den : ℚ)) ≠ 0 := by exact_mod_cast h
    rw [if_neg h, if_neg h]
    simp [h']

theorem mkStatusChecked_eq_some (nrows : Nat) (c : Column) :
    mkStatusChecked nrows c = some (mkStatus nrows c) := by
  unfold mkStatusChecked mkStatus
  rw [pctChecked_eq_some]
  rfl

theorem mkBreakdownChecked_eq_some (nrows : Nat) (c : Column) :
    mkBreakdownChecked nrows c = some (mkBreakdown nrows c) := by
  unfold mkBreakdownChecked mkBreakdown
  rw [pctChecked_eq_some]
  rfl

theorem mapM_eq_some_map {α β : Type} (f : α → Option β) (g : α → β)
    (hf : ∀ a, f a = some (g a)) (l : List α) :
    l.mapM f = some (l.map g) := by
  induction l with
  | nil => rfl
  | cons a l ih =>
      rw [List.mapM_cons, hf a, ih]
      rfl

theorem mapM_mkStatusChecked (nrows : Nat) (l : List Column) :
    l.mapM (mkStatusChecked nrows) = some (l.map (mkStatus nrows)) :=
  mapM_eq_some_map _ _ (mkStatusChecked_eq_some nrows) l

theorem mapM_mkBreakdownChecked (nrows : Nat) (l : List Column) :
    l.mapM (mkBreakdownChecked nrows) = some (l.map (mkBreakdown nrows)) :=
  mapM_eq_some_map _ _ (mkBreakdownChecked_eq_some nrows) l

theorem wordResultsRawChecked_eq_some (nrows : Nat) (pat : Str)
    (cols : List Column) :
    wordResultsRawChecked nrows pat cols
      = some (wordResultsRaw nrows pat cols) := by
  unfold wordResultsRawChecked wordResultsRaw
  apply mapM_eq_some_map
  intro c
  rw [pctChecked_eq_some]
  rfl

/-- C7: profiling never divides by zero: for every dataset (including
zero-row and zero-column datasets) and any queries, the checked profiler
completes with `some`, and its value is exactly the profile computed by
`analyze_dataframe`. -/
theorem C7_never_raises (excluded : List Str) (df : DataFrame)
    (cq wq : Str) :
    analyzeChecked excluded df cq wq
      = some (analyze_dataframe excluded df cq wq) := by
  unfold analyzeChecked analyze_dataframe
  by_cases hw : wq = []
  · simp only [hw, if_pos rfl, pctChecked_eq_some, mapM_mkStatusChecked,
      mapM_mkBreakdownChecked, Option.some_bind]
    rfl
  · simp only [hw, if_neg hw, pctChecked_eq_some, mapM_mkStatusChecked,
      mapM_mkBreakdownChecked, wordResultsRawChecked_eq_some,
      Option.some_bind, if_false]
    rfl

/-! ### The Streamlit word-search block (`src/streamlist.py`)

`streamlist.py` (lines 187 and 228) calls
`col_text.str.contains(word_search, case=False, na=False)` *without*
`regex=False`, so there — unlike in `flask_app.py` — the query is
interpreted as a regular expression, case-insensitively.  Python regex
semantics are modelled for patterns built from literal characters and
the `.` any-character wildcard; other metacharacters are outside the
model, so the theorems below that need literal behaviour assume the
query contains no regex metacharacter at all (and therefore also hold
of the unmodelled full semantics). -/

/-- The characters Python's `re` treats specially (regex
metacharacters). -/
def isRegexMeta (c : Char) : Bool :=
  c ∈ ".^$*+?\x7b\x7d[]\\|()".data

/-- Regex match of a literal-and-dot pattern against the front of a
string: `.` matches any single character. -/
def regexMatchHere : Str → Str → Bool
  | [], _ => true
  | _ :: _, [] => false
  | p :: ps, c :: cs =>
      (decide (p = '.') || decide (p = c)) && regexMatchHere ps cs

/-- `re.search` of a literal-and-dot pattern: the pattern may match at
any position of the string. -/
def regexSearch (pat : Str) : Str → Bool
  | [] => regexMatchHere pat []
  | c :: cs => regexMatchHere pat (c :: cs) || regexSearch pat cs

/-- `series.str.contains(pat, case=False, na=False)` — `regex` left at
its default `True` — for one cell after `astype(str)`, as called in
`streamlist.py`. -/
def streamlitCellMatches (pat : Str) (cell : Cell) : Bool :=
  regexSearch (lowerStr pat) (lowerStr (cellToStr cell))

/-- The positional indices of the cells the Streamlit regex search
matches, in row order. -/
def streamlitIdxFrom (pat : Str) : Nat → List Cell → List Nat
  | _, [] => []
  | i, x :: xs =>
      if streamlitCellMatches pat x then i :: streamlitIdxFrom pat (i + 1) xs
      else streamlitIdxFrom pat (i + 1) xs

/-- `example_rows` of `src/streamlist.py`: per included column with at
least one (regex) match, the first three matching rows, each value
truncated to its first 100 characters (`str(df.loc[idx, col])[:100]`);
the display then shows the first 10 entries. -/
def streamlit_example_rows (pat : Str) (cols : List Column) :
    List WordExample :=
  cols.flatMap (fun c =>
    if c.cells.any (streamlitCellMatches pat) then
      ((streamlitIdxFrom pat 0 c.cells).take 3).map
        (fun i => ⟨c.name, i + 1, (cellToStr (c.cells.getD i Cell.null)).take 100⟩)
    else [])

/-- C2 counterexample: in the Flask profiler, an example value is the
raw stringified cell with no 100-character cap: a matching cell of 101
characters yields an example value of length 101. -/
theorem C2_counterexample :
    ((analyze_dataframe EXCLUDED_COLUMNS
        ⟨1, [⟨"A".data, "object".data,
          [Cell.str (List.replicate 101 'a')]⟩]⟩ [] "a".data).word_examples.map
      (fun e => e.value.length)) = [101] := by
  decide

/-- C2 (amended): the Flask profiler's example values are the raw
stringified cells with no length cap; the Streamlit interface's
`example_rows` caps each value at 100 characters, so every example value
there has length at most 100. -/
theorem C2_value_cap (pat : Str) (cols : List Column)
    (excluded : List Str) (df : DataFrame) (cq wq : Str) :
    (∀ e ∈ streamlit_example_rows pat cols, e.value.length ≤ 100)
    ∧ (∀ e ∈ (analyze_dataframe excluded df cq wq).word_examples,
        ∃ c ∈ columnsToCheck excluded df, ∃ i : Nat,
          e.value = cellToStr (c.cells.getD i Cell.null)) := by
  constructor
  · intro e he
    obtain ⟨c, _, he'⟩ := List.mem_flatMap.mp he
    by_cases hc : c.cells.any (streamlitCellMatches pat)
    · rw [if_pos hc] at he'
      obtain ⟨i, _, rfl⟩ := List.mem_map.mp he'
      simp only []
      exact List.length_take_le 100 _
    · rw [if_neg hc] at he'
      exact absurd he' (List.not_mem_nil e)
  · intro e he
    rw [analyze_word_examples] at he
    by_cases hw : wq = []
    · rw [if_pos hw] at he
      exact absurd he (List.not_mem_nil e)
    · rw [if_neg hw] at he
      have he2 := List.mem_of_mem_take he
      unfold wordExamplesRaw at he2
      obtain ⟨c, hc, he3⟩ := List.mem_flatMap.mp he2
      obtain ⟨i, _, rfl⟩ := List.mem_map.mp he3
      exact ⟨c, List.mem_of_mem_filter hc, i, rfl⟩

/-- C2 witness. -/
theorem C2_value_cap_witness :
    (⟨"A".data, 1, List.replicate 100 'a'⟩ : WordExample).value.length ≤ 100 :=
  (C2_value_cap "a".data
    [⟨"A".data, "object".data, [Cell.str (List.replicate 101 'a')]⟩]
    EXCLUDED_COLUMNS ⟨0, []⟩ [] []).1
    ⟨"A".data, 1, List.replicate 100 'a'⟩ (by decide)

/-! ### Metacharacter-free regex patterns behave literally -/

theorem toLower_ne_dot {c : Char} (h : c ≠ '.') : c.toLower ≠ '.' := by
  unfold Char.toLower
  by_cases hc : c.toNat ≥ 65 ∧ c.toNat ≤ 90
  · obtain ⟨hc1, hc2⟩ := hc
    rw [if_pos ⟨hc1, hc2⟩]
    intro hcontra
    have hval : (c.toNat + 32).isValidChar := Or.inl (by omega)
    have ht := toNat_ofNat_of_valid hval
    rw [hcontra] at ht
    have h46 : ('.' : Char).toNat = 46 := rfl
    omega
  · rw [if_neg hc]
    exact h

theorem dot_not_mem_lowerStr {q : Str} (h : '.' ∉ q) : '.' ∉ lowerStr q := by
  intro hm
  obtain ⟨c, hc, hcl⟩ := List.mem_map.mp hm
  by_cases hcd : c = '.'
  · exact h (hcd ▸ hc)
  · exact toLower_ne_dot hcd hcl

theorem regexMatchHere_iff {p : Str} (hp : '.' ∉ p) :
    ∀ s : Str, (regexMatchHere p s = true ↔ p <+: s) := by
  induction p with
  | nil => intro s; simp [regexMatchHere]
  | cons a ps ih =>
      intro s
      have ha : a ≠ '.' := fun hcontra => hp (hcontra ▸ List.mem_cons_self a ps)
      have hp' : '.' ∉ ps := fun hm => hp (List.mem_cons_of_mem a hm)
      cases s with
      | nil => simp [regexMatchHere]
      | cons c cs =>
          rw [regexMatchHere, List.cons_prefix_cons]
          simp only [Bool.and_eq_true, Bool.or_eq_true, decide_eq_true_eq]
          rw [ih hp' cs]
          constructor
          · rintro ⟨hd | hac, hrec⟩
            · exact absurd hd ha
            · exact ⟨hac, hrec⟩
          · rintro ⟨hac, hrec⟩
            exact ⟨Or.inr hac, hrec⟩

theorem regexSearch_iff {p : Str} (hp : '.' ∉ p) :
    ∀ s : Str, (regexSearch p s = true ↔ p <:+: s) := by
  intro s
  induction s with
  | nil =>
      rw [regexSearch, regexMatchHere_iff hp]
      simp
  | cons c cs ih =>
      rw [regexSearch]
      simp only [Bool.or_eq_true]
      rw [regexMatchHere_iff hp, ih, List.infix_cons_iff]

/-- C6 counterexample: the claim's cited Streamlit call
(`str.contains` without `regex=False`) interprets the word query as a
regular expression: the query `"a.c"` matches the cell `"abc"` although
`"a.c"` is not a literal substring of `"abc"` (the Flask matcher
accordingly rejects that cell), and the Streamlit example list reports
the match. -/
theorem C6_counterexample :
    streamlitCellMatches "a.c".data (Cell.str "abc".data) = true
    ∧ cellMatches (lowerStr "a.c".data) (Cell.str "abc".data) = false
    ∧ ¬ ("a.c".data <:+: "abc".data)
    ∧ streamlit_example_rows "a.c".data
        [⟨"A".data, "object".data, [Cell.str "abc".data]⟩]
        = [⟨"A".data, 1, "abc".data⟩] := by
  refine ⟨by decide, by decide, by decide, by decide⟩

/-- C6 (amended): in the Flask profiler (which passes `regex=False`) a
cell matches iff its stringified value contains the word query as a
case-insensitive literal substring — missing cells stringify to the
fixed literal `"None"`, numeric and boolean cells are stringified too;
the Streamlit variant omits `regex=False` and interprets the query as a
case-insensitive regular expression, which agrees with the literal rule
exactly on queries free of regex metacharacters. -/
theorem C6_matching_rule (q : Str) (cell : Cell) :
    (cellMatches (lowerStr q) cell = true
      ↔ lowerStr q <:+: lowerStr (cellToStr cell))
    ∧ ((∀ c ∈ q, isRegexMeta c = false) →
        (streamlitCellMatches q cell = true
          ↔ lowerStr q <:+: lowerStr (cellToStr cell)))
    ∧ cellToStr Cell.null = "None".data
    ∧ (∀ n : ℤ, cellToStr (Cell.int n) = (toString n).data)
    ∧ (cellToStr (Cell.boolean true) = "True".data
        ∧ cellToStr (Cell.boolean false) = "False".data) := by
  refine ⟨?_, ?_, rfl, fun n => rfl, rfl, rfl⟩
  · unfold cellMatches
    rw [lowerStr_lowerStr]
    exact decide_eq_true_iff
  · intro hq
    have hdot : '.' ∉ q := fun hm => absurd (hq '.' hm) (by decide)
    unfold streamlitCellMatches
    exact regexSearch_iff (dot_not_mem_lowerStr hdot) _

/-- C6 witness. -/
theorem C6_matching_rule_witness :
    streamlitCellMatches "x".data (Cell.str "x".data) = true :=
  ((C6_matching_rule "x".data (Cell.str "x".data)).2.1 (by decide)).mpr
    (by decide)

end AnalyzerData
